import Mathlib

/-!
Verification development for the investment-opportunity-radar pipeline.

The definitions below are a shallow embedding of the Python sources:
* `src/app/services/analyzer.py` — article analysis, the opportunity push
  gate and the opportunity alert sender;
* `src/app/tasks/slot.py` — slot-run registry, the slot orchestrator and
  the daily report generator;
* `src/app/clients/werss.py` — the paginated time-range article fetch.

Database tables are modelled as Lean lists of records, SQLAlchemy sessions
become explicit state passing, and external HTTP calls (DeepSeek, DingTalk,
WeRSS) become explicit behaviour parameters (`ProviderCall`, `DingResult`,
a page feed function).  SHA-1 idempotency keys are abstracted to their
preimage strings.  Timestamps are integers (seconds).
-/

namespace InvestRadar

/-! ## Settings store (`settings` table, `get_setting_value`) -/

/-- Value of a `Settings.value_json` column: the pipeline only stores
integers (thresholds, window lengths) and lists of slot strings. -/
inductive SettingVal where
  | int (n : Int)
  | strList (l : List String)
deriving DecidableEq

/-- Python truthiness of a `value_json` value: `0` and `[]` are falsy. -/
def SettingVal.truthy : SettingVal → Bool
  | .int n => n != 0
  | .strList l => !l.isEmpty

/-- Slot strings carried by a `SettingVal`; only list values are ever
stored under `schedule_slots` (a truthy non-list value would raise a
`TypeError` inside Python's `sorted`, a case outside every claim). -/
def SettingVal.asSlots : SettingVal → List String
  | .int _ => []
  | .strList l => l

/-- Embeds `session.query(Settings).filter(Settings.key == key).first()`. -/
def getSetting (settings : List (String × SettingVal)) (key : String) :
    Option SettingVal :=
  (settings.find? (fun kv => kv.1 == key)).map (fun kv => kv.2)

/-- Embeds `get_setting_value(session, "push_score_threshold", 60)`
specialised to the integer-valued threshold setting. -/
def thresholdOf (settings : List (String × SettingVal)) : Int :=
  match getSetting settings "push_score_threshold" with
  | some (.int n) => n
  | _ => 60

/-- Embeds `get_setting_value(session, "window_days", 3)` specialised to
the integer-valued window-length setting. -/
def windowDaysOf (settings : List (String × SettingVal)) : Int :=
  match getSetting settings "window_days" with
  | some (.int n) => n
  | _ => 3

/-! ## Slot ordering (`sorted(slots)` in `is_last_slot_of_day`) -/

/-- Lexicographic strict order on char lists by code point, mirroring
Python string comparison. -/
def listLtb : List Char → List Char → Bool
  | [], [] => false
  | [], _ :: _ => true
  | _ :: _, [] => false
  | a :: as, b :: bs =>
    if a.toNat < b.toNat then true
    else if b.toNat < a.toNat then false
    else listLtb as bs

/-- Python `a < b` on strings (code-point lexicographic). -/
def strLtb (a b : String) : Bool := listLtb a.data b.data

/-- Insertion step of the ascending sort. -/
def insertSlot (x : String) : List String → List String
  | [] => [x]
  | y :: ys => if strLtb y x then y :: insertSlot x ys else x :: y :: ys

/-- Embeds Python `sorted(slots)` (ascending lexicographic sort). -/
def sortSlots (l : List String) : List String := l.foldr insertSlot []

/-! ## `is_last_slot_of_day` (src/app/tasks/slot.py lines 82-106) -/

/-- Default slot list hard-coded in `is_last_slot_of_day`. -/
def default_slots : List String := ["07:00", "12:00", "14:00", "18:00", "22:00"]

/-- Embeds the `if setting and setting.value_json:` branch choosing the
configured slot list or the default. -/
def slotsFromSetting : Option SettingVal → List String
  | some v => if v.truthy then v.asSlots else default_slots
  | none => default_slots

/-- Embeds `is_last_slot_of_day(session, current_slot)`: read
`schedule_slots` (falling back to the default when absent or falsy), sort
ascending, and compare `current_slot` with the last element. -/
def is_last_slot_of_day (settings : List (String × SettingVal))
    (current_slot : String) : Bool :=
  let slots := slotsFromSetting (getSetting settings "schedule_slots")
  let sorted_slots := sortSlots slots
  match sorted_slots.getLast? with
  | some last => current_slot == last
  | none => false

/-! ## Notification log (`notification_log` table) -/

/-- Row of `NotificationLog` restricted to the columns the claims are
about.  `status` is written as `1` for success and `2` for failure by
`push_opportunity_alert` / `generate_and_push_daily_report`; `msg_uuid`
abstracts the SHA-1 key to its preimage string. -/
structure NotifLog where
  report_date : String
  slot : String
  push_type : String
  status : Nat
  msg_uuid : String
deriving DecidableEq

/-- Embeds the quota query of `should_push_opportunity`: count successful
opportunity pushes recorded for `run_date`. -/
def countTodayPushes (logs : List NotifLog) (run_date : String) : Nat :=
  (logs.filter (fun l =>
    l.report_date == run_date && l.push_type == "opportunity" && l.status == 1)).length

/-! ## Verdict (`analysis_result` row, fields used by the gate) -/

/-- Persisted classification verdict (`AnalysisResult`), restricted to the
fields the notification gate and the digest read. -/
structure Verdict where
  score : Int
  has_opportunity : Bool
  summary_md : String
deriving DecidableEq

/-- Embeds `should_push_opportunity(session, analysis, run_date, slot)`
(src/app/services/analyzer.py lines 292-323). -/
def should_push_opportunity (logs : List NotifLog)
    (settings : List (String × SettingVal)) (analysis : Verdict)
    (run_date slot : String) : Bool :=
  if slot == "22:00" then false
  else
    let threshold := thresholdOf settings
    if analysis.score < threshold then false
    else if !analysis.has_opportunity then false
    else countTodayPushes logs run_date < 4

/-! ## DingTalk send operations -/

/-- Behaviour of one DingTalk webhook call: either the HTTP call raises,
or it returns a parsed body with `errcode`/`errmsg`. -/
inductive DingResult where
  | raiseExc
  | ok (errcode : Int) (errmsg : String)
deriving DecidableEq

/-- Embeds `generate_msg_uuid(date, slot, push_type)` with the SHA-1
abstracted to its preimage `f"{date}:{slot}:{push_type}"`. -/
def generate_msg_uuid (d slot push_type : String) : String :=
  d ++ ":" ++ slot ++ ":" ++ push_type

/-- Embeds `push_opportunity_alert` (analyzer.py lines 326-382): on a
returned response, append one `NotificationLog` row (status 1 on
`errcode == 0`, else 2) and report success; when the webhook call raises,
the exception is caught and `False` is returned with no row appended. -/
def push_opportunity_alert (logs : List NotifLog) (dr : DingResult)
    (run_date slot : String) (analysis_id : Nat) : List NotifLog × Bool :=
  match dr with
  | .raiseExc => (logs, false)
  | .ok errcode _ =>
    let success := errcode == 0
    (logs ++ [{ report_date := run_date, slot := slot,
                push_type := "opportunity",
                status := if success then 1 else 2,
                msg_uuid := run_date ++ ":" ++ slot ++ ":opportunity:" ++
                  toString analysis_id }], success)

/-- Embeds the send-and-log tail of `generate_and_push_daily_report`
(slot.py lines 381-419): same success/failure logging for the `daily`
push type; a raising webhook call is caught and yields `False` with no
row appended. -/
def send_daily_report_log (logs : List NotifLog) (dr : DingResult)
    (run_date slot : String) : List NotifLog × Bool :=
  match dr with
  | .raiseExc => (logs, false)
  | .ok errcode _ =>
    let success := errcode == 0
    (logs ++ [{ report_date := run_date, slot := slot, push_type := "daily",
                status := if success then 1 else 2,
                msg_uuid := generate_msg_uuid run_date slot "daily" }], success)

/-! ## Classifier (`analyze_article`, analyzer.py lines 159-289) -/

/-- Parsed JSON object returned by `deepseek.analyze_article`, modelled as
optional presence of the keys the code reads.  `otherKeys` records any
further keys so that Python dict truthiness (`if not result_json`) is
representable.  Entries of `opportunities` are kept as opaque strings
because no claim reads their inner fields. -/
structure RespJson where
  score : Option Int
  has_opportunity : Option Bool
  summary : Option String
  opportunities : Option (List String)
  otherKeys : List String
deriving DecidableEq

/-- Python truthiness of the result dict: falsy iff it has no keys. -/
def RespJson.truthy (j : RespJson) : Bool :=
  j.score.isSome || j.has_opportunity.isSome || j.summary.isSome ||
    j.opportunities.isSome || !j.otherKeys.isEmpty

/-- Embeds the mandatory-field validation
`[f for f in ["score", "has_opportunity", "summary"] if f not in result_json]`:
true iff some mandatory key is absent (the code then raises `ValueError`). -/
def requiredMissing (j : RespJson) : Bool :=
  !(j.score.isSome && j.has_opportunity.isSome && j.summary.isSome)

/-- Behaviour of one DeepSeek call: the client raises (HTTP error or
invalid JSON) or returns a parsed object. -/
inductive ProviderCall where
  | raiseExc
  | ret (j : RespJson)

/-- Embeds the per-attempt prompt escalation: attempt 0 sends the plain
prompt, attempt 1 appends the JSON-only reinforcement, attempts ≥ 2 append
the fill-missing-fields reinforcement. -/
def promptFor (user_prompt : String) (attempt : Nat) : String :=
  if attempt == 1 then
    user_prompt ++ "\n\n务必只输出 JSON，不要输出任何其它字符。"
  else if 2 <= attempt then
    user_prompt ++ "\n\n请严格按 EXAMPLE JSON OUTPUT 的字段顺序输出，缺字段用空值补齐。"
  else user_prompt

/-- Embeds the retry loop `for attempt in range(max_retries)`: each
iteration sends the escalated prompt; a raising call leaves `result_json`
unchanged, a returned object is stored in `result_json` and the loop
breaks unless a mandatory field is missing (the `ValueError` is caught and
the loop continues).  Returns the final `result_json` together with the
prompts sent, in order. -/
def runAttempts (user_prompt : String) (provider : Nat → ProviderCall)
    (attempt : Nat) (remaining : Nat) (result_json : Option RespJson)
    (sent : List String) : Option RespJson × List String :=
  match remaining with
  | 0 => (result_json, sent)
  | r + 1 =>
    let cp := promptFor user_prompt attempt
    match provider attempt with
    | .raiseExc => runAttempts user_prompt provider (attempt + 1) r result_json (sent ++ [cp])
    | .ret j =>
      if requiredMissing j then
        runAttempts user_prompt provider (attempt + 1) r (some j) (sent ++ [cp])
      else (some j, sent ++ [cp])

/-- Observable outcome of `analyze_article` for one `ContentItem`:
`item_status` is the final `analyzed_status` (2 = analyzed, 3 = failed),
`verdict` the persisted `AnalysisResult` if any, `oppRows` the persisted
`Opportunity` rows as (idx, entry) pairs, and `prompts` the provider calls
made. -/
structure AnalyzeOutcome where
  prompts : List String
  item_status : Nat
  verdict : Option Verdict
  oppRows : List (Nat × String)
deriving DecidableEq

/-- Embeds `analyze_article` (analyzer.py lines 159-289) with
`max_retries = 3`: run the retry loop, then follow the
`if not result_json:` check — a falsy final `result_json` marks the item
failed (status 3) and persists nothing, otherwise an `AnalysisResult` is
built with `result_json.get("score", 0)` / `.get("has_opportunity", False)`
/ `.get("summary", "")`, one `Opportunity` row is created per entry of
`result_json.get("opportunities", [])` in source order, and the item is
marked analyzed (status 2). -/
def analyze_article (user_prompt : String) (provider : Nat → ProviderCall) :
    AnalyzeOutcome :=
  let res := runAttempts user_prompt provider 0 3 none []
  match res.1 with
  | none => { prompts := res.2, item_status := 3, verdict := none, oppRows := [] }
  | some j =>
    if j.truthy then
      { prompts := res.2, item_status := 2,
        verdict := some { score := j.score.getD 0,
                          has_opportunity := j.has_opportunity.getD false,
                          summary_md := j.summary.getD "" },
        oppRows := (j.opportunities.getD []).enum }
    else { prompts := res.2, item_status := 3, verdict := none, oppRows := [] }

/-! ## Run registry (`get_or_create_slot_run`, slot.py lines 47-79) -/

/-- Row of `slot_run` restricted to the columns the claims are about.
`status` codes: 0 = running, 1 = succeeded, 2 = failed. -/
structure SlotRun where
  run_date : String
  slot : String
  window_start_at : Int
  window_end_at : Int
  status : Nat
deriving DecidableEq

/-- Key predicate of the registry lookup
`SlotRun.run_date == run_date, SlotRun.slot == slot`. -/
def matchesRun (run_date slot : String) (r : SlotRun) : Bool :=
  r.run_date == run_date && r.slot == slot

/-- Embeds `get_or_create_slot_run(session, run_date, slot)`: return the
existing row untouched when one matches the key, otherwise create exactly
one new row in running status whose fetch window of `window_days`
(setting, default 3) days ends `now`.  Returns the updated table, the run
and the `is_new` flag. -/
def get_or_create_slot_run (runs : List SlotRun)
    (settings : List (String × SettingVal)) (now : Int)
    (run_date slot : String) : List SlotRun × SlotRun × Bool :=
  match runs.find? (matchesRun run_date slot) with
  | some existing => (runs, existing, false)
  | none =>
    let window_days := windowDaysOf settings
    let slot_run : SlotRun :=
      { run_date := run_date, slot := slot,
        window_start_at := now - window_days * 86400,
        window_end_at := now, status := 0 }
    (runs ++ [slot_run], slot_run, true)

/-! ## Orchestrator status handling (`execute_slot`, slot.py lines 117-285) -/

/-- Observable effect of one `execute_slot` invocation on its `SlotRun`
row: the final row, whether the run was skipped, and the sequence of
values written to `status` during the invocation. -/
structure ExecOutcome where
  run : SlotRun
  skipped : Bool
  statusWrites : List Nat
deriving DecidableEq

/-- Embeds the status handling of `execute_slot` (slot.py lines 136-148
and 267-282) for the run returned by the registry: an existing run in
status 1 is skipped with no write; every other case writes status 0
(running) and then, depending on whether the body raises, 1 (succeeded)
or 2 (failed). -/
def execute_slot_on_run (run : SlotRun) (is_new : Bool) (bodyOk : Bool) :
    ExecOutcome :=
  if !is_new && run.status == 1 then
    { run := run, skipped := true, statusWrites := [] }
  else
    let r0 : SlotRun := { run with status := 0 }
    if bodyOk then
      { run := { r0 with status := 1 }, skipped := false, statusWrites := [0, 1] }
    else
      { run := { r0 with status := 2 }, skipped := false, statusWrites := [0, 2] }

/-! ## Daily digest (`generate_and_push_daily_report`, slot.py lines 288-419) -/

/-- Compact per-article record built by `generate_and_push_daily_report`
from each of the day's `AnalysisResult` rows. -/
structure CompactAnalysis where
  title : String
  mp_name : String
  published_at : String
  score : Int
  has_opportunity : Bool
  top_type : String
  summary : String
  analysis_url : String
deriving DecidableEq

/-- Behaviour of the DeepSeek digest call `generate_daily_digest`: it
raises, or returns a parsed dict whose `digest_md` / `has_opportunity`
keys may each be absent. -/
inductive DigestCall where
  | raiseExc
  | ok (digest_md : Option String) (has_opp : Option Bool)
deriving DecidableEq

/-- Embeds the fallback template built when the AI digest call raises:
header, statistics line and one bullet per analysed article. -/
def fallbackDigest (run_date : String) (analyses : List CompactAnalysis)
    (threshold : Int) (total_opportunities : Nat) : String :=
  "## " ++ (run_date ++ " 日报 (AI 生成遇到问题)\n\n" ++
    ("**统计**: 共分析 " ++ toString analyses.length ++ " 篇文章，发现 " ++
      toString total_opportunities ++ " 个机会\n\n### 文章列表\n") ++
    String.join (analyses.map (fun a =>
      "- " ++ (if a.has_opportunity && threshold ≤ a.score then "🎯" else "📄") ++
      " [" ++ a.title ++ "](" ++ a.analysis_url ++ ") (" ++ toString a.score ++ "分)\n")))

/-- Embeds the digest-body computation of `generate_and_push_daily_report`
(slot.py lines 331-355): with articles present, use the AI result's
`digest_md` (default `""`) when the call returns, or the fallback template
when it raises; with no articles, produce the fixed no-articles body. -/
def computeDigest (run_date : String) (analyses : List CompactAnalysis)
    (threshold : Int) (call : DigestCall) : String × Bool :=
  let total_opportunities :=
    (analyses.filter (fun a => a.has_opportunity && threshold ≤ a.score)).length
  if 0 < analyses.length then
    match call with
    | .ok dm ho => (dm.getD "", ho.getD false)
    | .raiseExc =>
      (fallbackDigest run_date analyses threshold total_opportunities,
       0 < total_opportunities)
  else
    ("## " ++ (run_date ++ " 日报\n\n**今日无新文章分析。**"), false)

/-- Row of `daily_report` restricted to the columns the claims are about. -/
structure DailyReport where
  report_date : String
  digest_md : String
deriving DecidableEq

/-- Replace the first element satisfying `p` by its image under `f`. -/
def updateFirst (p : DailyReport → Bool) (f : DailyReport → DailyReport) :
    List DailyReport → List DailyReport
  | [] => []
  | x :: xs => if p x then f x :: xs else x :: updateFirst p f xs

/-- Embeds the upsert of the `DailyReport` row (slot.py lines 357-379):
update the existing row for the date in place, or insert a new one. -/
def upsertDailyReport (reports : List DailyReport) (run_date digest : String) :
    List DailyReport :=
  if (reports.find? (fun r => r.report_date == run_date)).isSome then
    updateFirst (fun r => r.report_date == run_date)
      (fun r => { r with digest_md := digest }) reports
  else reports ++ [{ report_date := run_date, digest_md := digest }]

/-- Embeds `generate_and_push_daily_report` end to end: compute the digest
body, upsert the `DailyReport` row, then send via DingTalk and log the
attempt (`send_daily_report_log`).  Returns the new report table, the new
notification log table and the boolean the caller stores in its stats. -/
def generate_and_push_daily_report (reports : List DailyReport)
    (logs : List NotifLog) (settings : List (String × SettingVal))
    (analyses : List CompactAnalysis) (run_date slot : String)
    (call : DigestCall) (dr : DingResult) :
    List DailyReport × List NotifLog × Bool :=
  let threshold := thresholdOf settings
  let digest := computeDigest run_date analyses threshold call
  let reports2 := upsertDailyReport reports run_date digest.1
  let sent := send_daily_report_log logs dr run_date slot
  (reports2, sent.1, sent.2)

/-! ## Time-range fetch (`get_articles_by_time_range`, werss.py lines 160-218) -/

/-- Feed article as seen by the time-range fetch: external id and
`publish_time` (epoch seconds). -/
structure Article where
  id : String
  publish_time : Int
deriving DecidableEq

/-- Embeds `articles[-1].get("publish_time", 0)`. -/
def lastPub (page : List Article) : Int :=
  match page.getLast? with
  | some a => a.publish_time
  | none => 0

/-- Embeds the per-page `for article in articles:` body: keep articles
with `start_ts <= publish_time <= end_ts`; an article before `start_ts`
breaks out of the page (the feed is served in descending publish time);
later articles are skipped. -/
def pageFilter (start_ts end_ts : Int) : List Article → List Article
  | [] => []
  | a :: rest =>
    if start_ts ≤ a.publish_time && a.publish_time ≤ end_ts then
      a :: pageFilter start_ts end_ts rest
    else if a.publish_time < start_ts then []
    else pageFilter start_ts end_ts rest

/-- Embeds the `while True:` paging loop of `get_articles_by_time_range`
over a feed mapping an offset to the page returned by `get_articles`
(`limit` is the fixed 100): stop on an empty page, when the last article
of a page precedes `start_ts`, or when the incremented offset exceeds
10000.  Returns the collected articles and the number of pages fetched.
`fuel` only guarantees termination; the offset cap bounds the recursion
depth by 101, so any `fuel ≥ 101` computes the Python loop exactly. -/
def fetchLoop (feed : Nat → List Article) (start_ts end_ts : Int) :
    Nat → Nat → List Article × Nat
  | 0, _ => ([], 0)
  | fuel + 1, offset =>
    let articles := feed offset
    if articles.isEmpty then ([], 1)
    else
      let kept := pageFilter start_ts end_ts articles
      if lastPub articles < start_ts then (kept, 1)
      else
        let offset2 := offset + 100
        if 10000 < offset2 then (kept, 1)
        else
          let rest := fetchLoop feed start_ts end_ts fuel offset2
          (kept ++ rest.1, rest.2 + 1)

/-- Embeds `get_articles_by_time_range(start_time, end_time)`: run the
paging loop from offset 0. -/
def get_articles_by_time_range (feed : Nat → List Article)
    (start_ts end_ts : Int) : List Article × Nat :=
  fetchLoop feed start_ts end_ts 150 0

/-! ## Ingestion (`fetch_and_save_articles`, analyzer.py lines 77-156) -/

/-- Persisted `ContentItem` restricted to the ingestion key. -/
structure DBItem where
  external_id : String
deriving DecidableEq

/-- Embeds the per-article body of `fetch_and_save_articles`: skip
articles whose `external_id` already exists, skip articles whose detail
fetch raises (logged, batch continues), otherwise persist a new Item. -/
def ingestOne (detail : String → Option String) (acc : List DBItem × Nat)
    (article : Article) : List DBItem × Nat :=
  if ((acc.1).find? (fun it => it.external_id == article.id)).isSome then acc
  else
    match detail article.id with
    | none => acc
    | some _ => (acc.1 ++ [{ external_id := article.id }], acc.2 + 1)

/-- Embeds `fetch_and_save_articles` applied to an already-fetched article
list: fold the per-article ingestion over the table, returning the new
table and the number of newly persisted Items. -/
def fetch_and_save_articles (db : List DBItem) (articles : List Article)
    (detail : String → Option String) : List DBItem × Nat :=
  articles.foldl (ingestOne detail) (db, 0)

/-! ## Notification-writing operations as a transition system (for the
daily-quota invariant) -/

/-- One pipeline step that can append `NotificationLog` rows, as performed
by `execute_slot`: an opportunity alert is sent only after
`should_push_opportunity` returned true (slot.py lines 213-226); the daily
report send appends a `daily` row; the manual-summary helper (absent from
the sources; modelled from the spec, whose push types are only
`opportunity` and `daily`) appends a row of some non-`opportunity` type. -/
inductive PipeStep : List NotifLog → List NotifLog → Prop
  | pushOpp (logs : List NotifLog) (settings : List (String × SettingVal))
      (a : Verdict) (run_date slot : String) (dr : DingResult) (aid : Nat)
      (hgate : should_push_opportunity logs settings a run_date slot = true) :
      PipeStep logs (push_opportunity_alert logs dr run_date slot aid).1
  | pushDaily (logs : List NotifLog) (dr : DingResult) (run_date slot : String) :
      PipeStep logs (send_daily_report_log logs dr run_date slot).1
  | pushOther (logs : List NotifLog) (l : NotifLog)
      (hty : l.push_type ≠ "opportunity") :
      PipeStep logs (logs ++ [l])

/-- Notification-log states reachable from the empty table by pipeline
steps. -/
def ReachableLogs (logs : List NotifLog) : Prop :=
  Relation.ReflTransGen PipeStep [] logs

/-! ## Helper lemmas -/

/-- The gate can only return true while fewer than 4 successful
opportunity pushes are recorded for the date. -/
lemma should_push_lt_four (logs : List NotifLog)
    (settings : List (String × SettingVal)) (a : Verdict) (run_date slot : String)
    (h : should_push_opportunity logs settings a run_date slot = true) :
    countTodayPushes logs run_date < 4 := by
  unfold should_push_opportunity at h
  simp only [] at h
  split_ifs at h with h1 h2 h3
  exact of_decide_eq_true h

/-- With the quota reached, the gate refuses. -/
lemma should_push_false_of_quota (logs : List NotifLog)
    (settings : List (String × SettingVal)) (a : Verdict) (run_date slot : String)
    (h : 4 ≤ countTodayPushes logs run_date) :
    should_push_opportunity logs settings a run_date slot = false := by
  unfold should_push_opportunity
  simp only []
  split_ifs with h1 h2 h3
  · rfl
  · rfl
  · rfl
  · exact decide_eq_false (by omega)

/-- Appending one row changes a date's success count by 1 when the row is
a successful opportunity push for that date, else by 0. -/
lemma countTodayPushes_append (logs : List NotifLog) (l : NotifLog) (d : String) :
    countTodayPushes (logs ++ [l]) d =
      countTodayPushes logs d +
        (if l.report_date == d && l.push_type == "opportunity" && l.status == 1
         then 1 else 0) := by
  unfold countTodayPushes
  rw [List.filter_append, List.length_append]
  cases h : (l.report_date == d && l.push_type == "opportunity" && l.status == 1) <;>
    simp [List.filter_cons, h]

/-! ## Claim C1 -/

/-- Settings store configuring "07:00" as the only (hence last) slot. -/
def c1Settings : List (String × SettingVal) :=
  [("schedule_slots", SettingVal.strList ["07:00"])]

/-- High-scoring opportunity verdict. -/
def c1Verdict : Verdict :=
  { score := 100, has_opportunity := true, summary_md := "s" }

/-- Claim C1 is false as stated: with `schedule_slots = ["07:00"]` the
current slot "07:00" IS the maximum of the configured slot set, yet the
gate still returns true for an eligible verdict — eligibility never
consults the configured slot set, only the literal "22:00". -/
theorem c1_gate_ignores_slot_set :
    should_push_opportunity [] c1Settings c1Verdict "2026-01-10" "07:00" = true ∧
    is_last_slot_of_day c1Settings "07:00" = true := by
  constructor
  · rfl
  · rfl

/-- Claim C1 (amended): the gate returns true only if the slot differs
from the hard-coded literal "22:00", the verdict's score reaches the
configured threshold, the hasOpportunity flag is set, and fewer than 4
successful opportunity pushes are already recorded for the date; the
runtime-configured slot set plays no role in eligibility. -/
theorem c1_gate_only_if (logs : List NotifLog)
    (settings : List (String × SettingVal)) (a : Verdict)
    (run_date slot : String)
    (h : should_push_opportunity logs settings a run_date slot = true) :
    slot ≠ "22:00" ∧ thresholdOf settings ≤ a.score ∧
      a.has_opportunity = true ∧ countTodayPushes logs run_date < 4 := by
  have hq := should_push_lt_four logs settings a run_date slot h
  unfold should_push_opportunity at h
  simp only [] at h
  split_ifs at h with h1 h2 h3
  refine ⟨?_, ?_, ?_, hq⟩
  · intro hs
    exact h1 (by simp [hs])
  · exact Int.not_lt.mp h2
  · cases hb : a.has_opportunity
    · exact absurd (by simp [hb]) h3
    · rfl

/-- Witness for `c1_gate_only_if`: the gate fires on a concrete eligible
verdict at slot "12:00" with default settings and an empty log table. -/
theorem c1_gate_only_if_witness :
    "12:00" ≠ "22:00" ∧
      thresholdOf [] ≤ (Verdict.mk 75 true "").score ∧
      (Verdict.mk 75 true "").has_opportunity = true ∧
      countTodayPushes [] "2026-01-10" < 4 :=
  c1_gate_only_if [] [] (Verdict.mk 75 true "") "2026-01-10" "12:00" (by rfl)

/-! ## Claim C10 -/

/-- Claim C10 is false as stated: an empty configured slot list is falsy
in Python, so `is_last_slot_of_day` falls back to the default slots and
still reports "22:00" as the day's last slot instead of returning False
for every slot. -/
theorem c10_empty_slots_fall_back :
    is_last_slot_of_day [("schedule_slots", SettingVal.strList [])] "22:00" = true := by
  rfl

/-- Claim C10 (amended): whenever the `schedule_slots` setting is absent
or holds a falsy value — which includes the empty list — the function
uses the default slot list ["07:00", "12:00", "14:00", "18:00", "22:00"],
so a slot is the day's last exactly when it equals "22:00"; the
return-False branch for an empty sorted list is unreachable for
list-valued settings. -/
theorem c10_falsy_slots_default (settings : List (String × SettingVal))
    (slot : String)
    (h : getSetting settings "schedule_slots" = none ∨
         ∃ v, getSetting settings "schedule_slots" = some v ∧ v.truthy = false) :
    is_last_slot_of_day settings slot = (slot == "22:00") := by
  have hs : slotsFromSetting (getSetting settings "schedule_slots") = default_slots := by
    rcases h with h | ⟨v, hv, ht⟩
    · rw [h]
      rfl
    · rw [hv]
      simp [slotsFromSetting, ht]
  unfold is_last_slot_of_day
  simp only []
  rw [hs]
  rfl

/-- Witness for `c10_falsy_slots_default`: with no settings at all,
"22:00" is reported as the last slot of the day. -/
theorem c10_falsy_slots_default_witness :
    is_last_slot_of_day [] "22:00" = ("22:00" == "22:00") :=
  c10_falsy_slots_default [] "22:00" (Or.inl rfl)

/-! ## Claim C4 -/

/-- Claim C4 is false as stated: when the DingTalk provider call itself
raises, neither `push_opportunity_alert` nor the daily-report send writes
any NotificationRecord — the exception is merely caught and `false`
returned. -/
theorem c4_raise_writes_no_record :
    (push_opportunity_alert [] DingResult.raiseExc "2026-01-10" "12:00" 7).1 = [] ∧
    (send_daily_report_log [] DingResult.raiseExc "2026-01-10" "22:00").1 = [] :=
  ⟨rfl, rfl⟩

/-- Claim C4 (amended): when the provider call returns a response, each
send operation appends exactly one NotificationRecord whose status is
success (1) on `errcode = 0` and failed (2) otherwise, and returns the
success boolean; when the provider call raises, the operation catches the
exception and returns false without writing a record — in neither case
does the operation itself raise. -/
theorem c4_send_logs_or_swallows (logs : List NotifLog)
    (run_date slot : String) (aid : Nat) (ec : Int) (em : String) :
    push_opportunity_alert logs (DingResult.ok ec em) run_date slot aid =
      (logs ++ [{ report_date := run_date, slot := slot,
                  push_type := "opportunity",
                  status := if ec == 0 then 1 else 2,
                  msg_uuid := run_date ++ ":" ++ slot ++ ":opportunity:" ++
                    toString aid }],
       ec == 0) ∧
    push_opportunity_alert logs DingResult.raiseExc run_date slot aid =
      (logs, false) ∧
    send_daily_report_log logs (DingResult.ok ec em) run_date slot =
      (logs ++ [{ report_date := run_date, slot := slot, push_type := "daily",
                  status := if ec == 0 then 1 else 2,
                  msg_uuid := generate_msg_uuid run_date slot "daily" }],
       ec == 0) ∧
    send_daily_report_log logs DingResult.raiseExc run_date slot =
      (logs, false) :=
  ⟨rfl, rfl, rfl, rfl⟩

/-! ## Claim C6 -/

/-- A slot run already in failed status. -/
def c6FailedRun : SlotRun :=
  { run_date := "2026-01-10", slot := "12:00", window_start_at := 0,
    window_end_at := 100, status := 2 }

/-- A slot run already in succeeded status. -/
def c6SuccRun : SlotRun :=
  { run_date := "2026-01-10", slot := "12:00", window_start_at := 0,
    window_end_at := 100, status := 1 }

/-- Claim C6 is false as stated: re-triggering a (date, slot) whose run
already reached the terminal failed status (2) writes its status again —
first back to running (0) and then to a new terminal value — so failed is
not write-once. -/
theorem c6_failed_run_is_rerun :
    (execute_slot_on_run c6FailedRun false true).statusWrites = [0, 1] ∧
    (execute_slot_on_run c6FailedRun false true).run.status = 1 :=
  ⟨rfl, rfl⟩

/-- Claim C6 (amended): only succeeded (1) is terminal — re-triggering
after success skips the run without modifying it — while re-triggering
after failure (2) re-executes the run, rewriting its status to running
and then to the new terminal value. -/
theorem c6_succeeded_terminal_failed_rerun (run : SlotRun) (bodyOk : Bool) :
    (run.status = 1 →
        execute_slot_on_run run false bodyOk =
          { run := run, skipped := true, statusWrites := [] }) ∧
    (run.status = 2 →
        execute_slot_on_run run false bodyOk =
          { run := { run with status := if bodyOk then 1 else 2 },
            skipped := false,
            statusWrites := [0, if bodyOk then 1 else 2] }) := by
  constructor
  · intro hs
    unfold execute_slot_on_run
    simp [hs]
  · intro hs
    unfold execute_slot_on_run
    simp only [hs]
    cases bodyOk <;> simp

/-- Witness for `c6_succeeded_terminal_failed_rerun`: a concrete succeeded
run is skipped untouched. -/
theorem c6_succeeded_terminal_failed_rerun_witness :
    execute_slot_on_run c6SuccRun false true =
      { run := c6SuccRun, skipped := true, statusWrites := [] } :=
  (c6_succeeded_terminal_failed_rerun c6SuccRun true).1 rfl

/-! ## Claim C2 -/

/-- Provider response that parses as JSON but misses the mandatory
`has_opportunity` and `summary` fields. -/
def c2BadJson : RespJson :=
  { score := some 80, has_opportunity := none, summary := none,
    opportunities := none, otherKeys := [] }

/-- Claim C2 names the intended behaviour (spec §7 MalformedModelOutput:
mark the item failed, persist nothing) but the code slips: when every
attempt returns a parseable JSON object missing a mandatory field, the
validation raises and is caught on each attempt, yet `result_json` keeps
the last partial object, so the final `if not result_json:` guard does
not fire — `analyze_article` persists a Verdict built from default values
and marks the item analyzed (status 2) instead of failed (3). -/
theorem c2_partial_json_persisted :
    requiredMissing c2BadJson = true ∧
    analyze_article "p" (fun _ => ProviderCall.ret c2BadJson) =
      { prompts := [promptFor "p" 0, promptFor "p" 1, promptFor "p" 2],
        item_status := 2,
        verdict := some { score := 80, has_opportunity := false, summary_md := "" },
        oppRows := [] } :=
  ⟨rfl, rfl⟩

/-! ## Claim C5 -/

/-- Claim C5: `get_or_create_slot_run` is idempotent — an existing Run for
(date, slot) is returned unchanged with no new row; otherwise exactly one
Run is created in running status (0) with a window of `window_days`
(default 3) days ending now; and a second invocation with the same key
returns the identical Run without creating anything. -/
theorem c5_get_or_create_idempotent (runs : List SlotRun)
    (settings settings2 : List (String × SettingVal)) (now now2 : Int)
    (run_date slot : String) :
    (∀ r, runs.find? (matchesRun run_date slot) = some r →
        get_or_create_slot_run runs settings now run_date slot = (runs, r, false)) ∧
    (runs.find? (matchesRun run_date slot) = none →
        get_or_create_slot_run runs settings now run_date slot =
          (runs ++ [{ run_date := run_date, slot := slot,
                      window_start_at := now - windowDaysOf settings * 86400,
                      window_end_at := now, status := 0 }],
           { run_date := run_date, slot := slot,
             window_start_at := now - windowDaysOf settings * 86400,
             window_end_at := now, status := 0 }, true)) ∧
    (get_or_create_slot_run
        (get_or_create_slot_run runs settings now run_date slot).1
        settings2 now2 run_date slot =
      ((get_or_create_slot_run runs settings now run_date slot).1,
       (get_or_create_slot_run runs settings now run_date slot).2.1, false)) := by
  refine ⟨?_, ?_, ?_⟩
  · intro r hr
    unfold get_or_create_slot_run
    rw [hr]
  · intro hr
    unfold get_or_create_slot_run
    rw [hr]
  · cases hfind : runs.find? (matchesRun run_date slot) with
    | some r =>
      unfold get_or_create_slot_run
      simp [hfind]
    | none =>
      have hstep : get_or_create_slot_run runs settings now run_date slot =
          (runs ++ [{ run_date := run_date, slot := slot,
                      window_start_at := now - windowDaysOf settings * 86400,
                      window_end_at := now, status := 0 }],
           { run_date := run_date, slot := slot,
             window_start_at := now - windowDaysOf settings * 86400,
             window_end_at := now, status := 0 }, true) := by
        unfold get_or_create_slot_run
        rw [hfind]
      rw [hstep]
      unfold get_or_create_slot_run
      rw [List.find?_append, hfind]
      simp [List.find?, matchesRun]

/-- Witness for `c5_get_or_create_idempotent`: creating into an empty
registry yields exactly one running Run with the default 3-day window
ending now. -/
theorem c5_get_or_create_idempotent_witness :
    get_or_create_slot_run [] [] 1000 "2026-01-10" "07:00" =
      ([{ run_date := "2026-01-10", slot := "07:00",
          window_start_at := 1000 - windowDaysOf [] * 86400,
          window_end_at := 1000, status := 0 }],
       { run_date := "2026-01-10", slot := "07:00",
         window_start_at := 1000 - windowDaysOf [] * 86400,
         window_end_at := 1000, status := 0 }, true) :=
  (c5_get_or_create_idempotent [] [] [] 1000 2000 "2026-01-10" "07:00").2.1 rfl

/-! ## Claim C3 -/

/-- Appending one row raises a date's success count by at most 1. -/
lemma countTodayPushes_append_le (logs : List NotifLog) (l : NotifLog) (d : String) :
    countTodayPushes (logs ++ [l]) d ≤ countTodayPushes logs d + 1 := by
  rw [countTodayPushes_append]
  split <;> omega

/-- Appending a row that is not a successful opportunity push for the
date leaves the date's success count unchanged. -/
lemma countTodayPushes_append_ne (logs : List NotifLog) (l : NotifLog) (d : String)
    (h : (l.report_date == d && l.push_type == "opportunity" && l.status == 1) = false) :
    countTodayPushes (logs ++ [l]) d = countTodayPushes logs d := by
  rw [countTodayPushes_append, h]
  simp

/-- One pipeline step preserves the per-date quota bound. -/
lemma pipeStep_preserves_quota (logs logs2 : List NotifLog)
    (hstep : PipeStep logs logs2) (hinv : ∀ d, countTodayPushes logs d ≤ 4) :
    ∀ d, countTodayPushes logs2 d ≤ 4 := by
  intro d
  cases hstep with
  | pushOpp settings a run_date slot dr aid hgate =>
    cases dr with
    | raiseExc => exact hinv d
    | ok ec em =>
      have hlt := should_push_lt_four logs settings a run_date slot hgate
      by_cases hd : run_date = d
      · subst hd
        have hle := countTodayPushes_append_le logs
          { report_date := run_date, slot := slot, push_type := "opportunity",
            status := if ec == 0 then 1 else 2,
            msg_uuid := run_date ++ ":" ++ slot ++ ":opportunity:" ++
              toString aid } run_date
        calc countTodayPushes (push_opportunity_alert logs (DingResult.ok ec em)
                run_date slot aid).1 run_date
            ≤ countTodayPushes logs run_date + 1 := hle
          _ ≤ 4 := by omega
      · have hne := countTodayPushes_append_ne logs
          { report_date := run_date, slot := slot, push_type := "opportunity",
            status := if ec == 0 then 1 else 2,
            msg_uuid := run_date ++ ":" ++ slot ++ ":opportunity:" ++
              toString aid } d (by simp [hd])
        exact le_of_eq_of_le hne (hinv d)
  | pushDaily dr run_date slot =>
    cases dr with
    | raiseExc => exact hinv d
    | ok ec em =>
      have hne := countTodayPushes_append_ne logs
        { report_date := run_date, slot := slot, push_type := "daily",
          status := if ec == 0 then 1 else 2,
          msg_uuid := generate_msg_uuid run_date slot "daily" } d (by simp)
      exact le_of_eq_of_le hne (hinv d)
  | pushOther l hty =>
    have hne := countTodayPushes_append_ne logs l d (by simp [hty])
    exact le_of_eq_of_le hne (hinv d)

/-- Claim C3: in every notification-log state reachable by the pipeline's
operations, each calendar date has at most 4 successful opportunity
records, and once a date's count has reached 4 the gate returns false, so
a 5th eligible verdict produces no further opportunity record. -/
theorem c3_daily_opportunity_quota (logs : List NotifLog)
    (h : ReachableLogs logs) :
    (∀ d, countTodayPushes logs d ≤ 4) ∧
    (∀ settings a run_date slot, 4 ≤ countTodayPushes logs run_date →
        should_push_opportunity logs settings a run_date slot = false) := by
  constructor
  · induction h with
    | refl => intro d; simp [countTodayPushes]
    | tail hsteps hstep ih => exact pipeStep_preserves_quota _ _ hstep ih
  · intro settings a run_date slot hq
    exact should_push_false_of_quota logs settings a run_date slot hq

/-- Witness for `c3_daily_opportunity_quota`: after one successful gated
opportunity push from the empty table, the date's success count is within
the quota. -/
theorem c3_daily_opportunity_quota_witness :
    countTodayPushes
        (push_opportunity_alert [] (DingResult.ok 0 "") "2026-01-10" "12:00" 1).1
        "2026-01-10" ≤ 4 :=
  (c3_daily_opportunity_quota _
      (Relation.ReflTransGen.single
        (PipeStep.pushOpp [] [] (Verdict.mk 75 true "") "2026-01-10" "12:00"
          (DingResult.ok 0 "") 1 (by rfl)))).1 "2026-01-10"

/-! ## Claim C7 -/

/-- Strings beginning with the digest header are non-empty. -/
lemma header_ne_empty (t : String) : ("## " ++ t) ≠ "" := by
  intro h
  have h2 : ("## " ++ t).length = ("" : String).length := by rw [h]
  rw [String.length_append] at h2
  have h3 : ("## " : String).length = 3 := rfl
  have h4 : ("" : String).length = 0 := rfl
  omega

/-- Updating the first row for a date keeps it findable and stores the
new digest there. -/
lemma find_updateFirst (run_date digest : String) (reports : List DailyReport)
    (h : (reports.find? (fun r => r.report_date == run_date)).isSome = true) :
    (((updateFirst (fun r => r.report_date == run_date)
          (fun r => { r with digest_md := digest }) reports).find?
        (fun r => r.report_date == run_date)).map (fun r => r.digest_md)) =
      some digest := by
  induction reports with
  | nil => simp [List.find?] at h
  | cons x xs ih =>
    by_cases hx : (x.report_date == run_date) = true
    · simp [updateFirst, hx, List.find?]
    · have h2 : (xs.find? (fun r => r.report_date == run_date)).isSome = true := by
        simpa [List.find?, hx] using h
      simp [updateFirst, hx, List.find?, ih h2]

/-- The upserted daily report for the date carries exactly the digest that
was just computed. -/
lemma find_upsert (reports : List DailyReport) (run_date digest : String) :
    (((upsertDailyReport reports run_date digest).find?
        (fun r => r.report_date == run_date)).map (fun r => r.digest_md)) =
      some digest := by
  unfold upsertDailyReport
  split
  case isTrue h => exact find_updateFirst run_date digest reports h
  case isFalse h =>
    have hn : reports.find? (fun r => r.report_date == run_date) = none := by
      cases hf : reports.find? (fun r => r.report_date == run_date) with
      | none => rfl
      | some r => rw [hf] at h; simp at h
    rw [List.find?_append, hn]
    simp [List.find?]

/-- Analysed article used by the counterexample. -/
def c7Analysis : CompactAnalysis :=
  { title := "t", mp_name := "m", published_at := "2026-01-10T09:00:00",
    score := 80, has_opportunity := true, top_type := "", summary := "s",
    analysis_url := "u" }

/-- Claim C7 is false as stated: when the AI summarization call succeeds
but its response lacks the `digest_md` key, `digest_result.get("digest_md", "")`
yields the empty string, and the stored DailyReport row for the date
carries an empty `digest_md`. -/
theorem c7_empty_ai_digest_stored :
    (generate_and_push_daily_report [] [] [] [c7Analysis] "2026-01-10" "22:00"
        (DigestCall.ok none none) (DingResult.ok 0 "")).1 =
      [{ report_date := "2026-01-10", digest_md := "" }] := by
  rfl

/-- Claim C7 (amended): the digest body is non-empty whenever the AI
summarization call raises (deterministic fallback template) and whenever
zero items were analysed (fixed no-articles body); when the call succeeds
its `digest_md` value (default `""`, hence possibly empty) is used as is;
and in every case the stored DailyReport row for the date carries exactly
the computed body. -/
theorem c7_digest_fallback_nonempty (run_date : String)
    (analyses : List CompactAnalysis) (threshold : Int) :
    ((computeDigest run_date analyses threshold DigestCall.raiseExc).1 ≠ "") ∧
    (∀ call, analyses = [] → (computeDigest run_date analyses threshold call).1 ≠ "") ∧
    (∀ dm ho, analyses ≠ [] →
        (computeDigest run_date analyses threshold (DigestCall.ok dm ho)).1 = dm.getD "") ∧
    (∀ reports logs settings slot call dr,
        (((generate_and_push_daily_report reports logs settings analyses run_date
              slot call dr).1.find? (fun r => r.report_date == run_date)).map
            (fun r => r.digest_md)) =
          some (computeDigest run_date analyses (thresholdOf settings) call).1) := by
  refine ⟨?_, ?_, ?_, ?_⟩
  · unfold computeDigest
    simp only []
    split
    · exact header_ne_empty _
    · exact header_ne_empty _
  · intro call hnil
    subst hnil
    cases call <;> exact header_ne_empty _
  · intro dm ho hne
    unfold computeDigest
    simp only []
    split
    · rfl
    case isFalse hlen =>
      exact absurd (List.length_pos.mpr hne) hlen
  · intro reports logs settings slot call dr
    unfold generate_and_push_daily_report
    simp only []
    exact find_upsert reports run_date _

/-- Witness for `c7_digest_fallback_nonempty`: at a concrete analysed
article, the fallback body is non-empty, an empty AI response stores the
empty string, and the stored row matches the computed digest. -/
theorem c7_digest_fallback_nonempty_witness :
    ((computeDigest "2026-01-10" [c7Analysis] 60 DigestCall.raiseExc).1 ≠ "") ∧
    ((computeDigest "2026-01-10" [c7Analysis] 60 (DigestCall.ok none none)).1 =
      (none : Option String).getD "") ∧
    ((((generate_and_push_daily_report [] [] [] [c7Analysis] "2026-01-10" "22:00"
          DigestCall.raiseExc (DingResult.ok 0 "")).1.find?
        (fun r => r.report_date == "2026-01-10")).map (fun r => r.digest_md)) =
      some (computeDigest "2026-01-10" [c7Analysis] (thresholdOf []) DigestCall.raiseExc).1) :=
  ⟨(c7_digest_fallback_nonempty "2026-01-10" [c7Analysis] 60).1,
   (c7_digest_fallback_nonempty "2026-01-10" [c7Analysis] 60).2.2.1 none none
     (by simp),
   (c7_digest_fallback_nonempty "2026-01-10" [c7Analysis] (thresholdOf [])).2.2.2
     [] [] [] "22:00" DigestCall.raiseExc (DingResult.ok 0 "")⟩

/-! ## Claim C8 -/

/-- The retry loop sends at most `remaining` further prompts, and the
prompts sent are exactly the escalations for consecutive attempt
numbers. -/
lemma runAttempts_sent (up : String) (prov : Nat → ProviderCall) :
    ∀ (remaining attempt : Nat) (rj : Option RespJson) (sent : List String),
      ∃ k, k ≤ remaining ∧
        (runAttempts up prov attempt remaining rj sent).2 =
          sent ++ (List.range k).map (fun i => promptFor up (attempt + i)) := by
  intro remaining
  induction remaining with
  | zero =>
    intro attempt rj sent
    exact ⟨0, Nat.le_refl 0, by simp [runAttempts]⟩
  | succ r ih =>
    intro attempt rj sent
    have hcomp : ((fun i => promptFor up (attempt + i)) ∘ Nat.succ) =
        (fun i => promptFor up (attempt + 1 + i)) :=
      funext (fun i => by
        simp only [Function.comp_apply]
        congr 1
        omega)
    have hsucc : ∀ k, (sent ++ [promptFor up attempt]) ++
          (List.range k).map (fun i => promptFor up (attempt + 1 + i)) =
        sent ++ (List.range (k + 1)).map (fun i => promptFor up (attempt + i)) := by
      intro k
      rw [List.append_assoc, List.range_succ_eq_map, List.map_cons, List.map_map,
        hcomp]
      simp
    have hone : sent ++ [promptFor up attempt] =
        sent ++ (List.range 1).map (fun i => promptFor up (attempt + i)) := by
      simpa using hsucc 0
    unfold runAttempts
    cases hp : prov attempt with
    | raiseExc =>
      obtain ⟨k, hk, he⟩ := ih (attempt + 1) rj (sent ++ [promptFor up attempt])
      exact ⟨k + 1, by omega, by rw [he, hsucc]⟩
    | ret j =>
      by_cases hm : requiredMissing j = true
      · obtain ⟨k, hk, he⟩ := ih (attempt + 1) (some j) (sent ++ [promptFor up attempt])
        exact ⟨k + 1, by omega, by simp only [hm, if_true]; rw [he, hsucc]⟩
      · refine ⟨1, by omega, ?_⟩
        simp only [eq_false_of_ne_true hm]
        simp only [Bool.false_eq_true, if_false]
        exact hone

/-- Every invocation of `analyze_article` sends at most 3 prompts, and the
i-th prompt sent is the i-th escalation. -/
lemma analyze_prompts (up : String) (prov : Nat → ProviderCall) :
    ∃ k, k ≤ 3 ∧
      (analyze_article up prov).prompts = (List.range k).map (promptFor up) := by
  obtain ⟨k, hk, he⟩ := runAttempts_sent up prov 3 0 none []
  refine ⟨k, hk, ?_⟩
  have hsent : (runAttempts up prov 0 3 none []).2 =
      (List.range k).map (promptFor up) := by
    rw [he]
    simp
  unfold analyze_article
  simp only []
  cases h1 : (runAttempts up prov 0 3 none []).1 with
  | none => simpa [h1] using hsent
  | some j =>
    cases htr : j.truthy <;> simp [h1, htr] <;> exact hsent

/-- Claim C8: classification invokes the provider at most 3 times with
the plain prompt first, the JSON-only reinforcement appended on the second
attempt and the fill-missing-fields reinforcement appended on the third;
and when the first two attempts raise while the third returns a response
with all mandatory fields, exactly 3 calls occur, the Verdict is persisted
and the item is marked done (status 2). -/
theorem c8_escalating_retry (up : String) (provider : Nat → ProviderCall)
    (j : RespJson) (h0 : provider 0 = ProviderCall.raiseExc)
    (h1 : provider 1 = ProviderCall.raiseExc)
    (h2 : provider 2 = ProviderCall.ret j)
    (hj : requiredMissing j = false) :
    (∀ prov : Nat → ProviderCall, ∃ k, k ≤ 3 ∧
        (analyze_article up prov).prompts = (List.range k).map (promptFor up)) ∧
    promptFor up 0 = up ∧
    promptFor up 1 = up ++ "\n\n务必只输出 JSON，不要输出任何其它字符。" ∧
    promptFor up 2 = up ++ "\n\n请严格按 EXAMPLE JSON OUTPUT 的字段顺序输出，缺字段用空值补齐。" ∧
    (analyze_article up provider).prompts =
      [promptFor up 0, promptFor up 1, promptFor up 2] ∧
    (analyze_article up provider).item_status = 2 ∧
    (analyze_article up provider).verdict =
      some { score := j.score.getD 0,
             has_opportunity := j.has_opportunity.getD false,
             summary_md := j.summary.getD "" } := by
  have hrun : runAttempts up provider 0 3 none [] =
      (some j, [promptFor up 0, promptFor up 1, promptFor up 2]) := by
    simp [runAttempts, h0, h1, h2, hj]
  have hfields : (j.score.isSome = true ∧ j.has_opportunity.isSome = true) ∧
      j.summary.isSome = true := by
    unfold requiredMissing at hj
    simpa using hj
  have htr : j.truthy = true := by
    unfold RespJson.truthy
    simp [hfields.1.1]
  refine ⟨fun prov => analyze_prompts up prov, rfl, rfl, rfl, ?_, ?_, ?_⟩ <;>
    simp [analyze_article, hrun, htr]

/-- Valid provider response carrying all mandatory fields. -/
def c8GoodJson : RespJson :=
  { score := some 75, has_opportunity := some true, summary := some "ok",
    opportunities := none, otherKeys := [] }

/-- Provider behaviour raising on attempts 0 and 1 and answering validly
on attempt 2. -/
def c8Provider : Nat → ProviderCall := fun n =>
  match n with
  | 0 => ProviderCall.raiseExc
  | 1 => ProviderCall.raiseExc
  | _ => ProviderCall.ret c8GoodJson

/-- Witness for `c8_escalating_retry` at a concrete provider behaviour:
three prompts are sent, the item ends done with the persisted Verdict. -/
theorem c8_escalating_retry_witness :
    (analyze_article "p" c8Provider).prompts =
      [promptFor "p" 0, promptFor "p" 1, promptFor "p" 2] ∧
    (analyze_article "p" c8Provider).item_status = 2 ∧
    (analyze_article "p" c8Provider).verdict =
      some { score := (c8GoodJson.score).getD 0,
             has_opportunity := (c8GoodJson.has_opportunity).getD false,
             summary_md := (c8GoodJson.summary).getD "" } :=
  ⟨(c8_escalating_retry "p" c8Provider c8GoodJson rfl rfl rfl rfl).2.2.2.2.1,
   (c8_escalating_retry "p" c8Provider c8GoodJson rfl rfl rfl rfl).2.2.2.2.2.1,
   (c8_escalating_retry "p" c8Provider c8GoodJson rfl rfl rfl rfl).2.2.2.2.2.2⟩

/-! ## Claim C9 -/

/-- The paging loop fetches at most `(10000 - offset) / 100 + 1` pages,
because the offset check bounds the recursion regardless of fuel. -/
lemma fetchLoop_pages_le (feed : Nat → List Article) (s e : Int) :
    ∀ (fuel offset : Nat),
      (fetchLoop feed s e fuel offset).2 ≤ (10000 - offset) / 100 + 1 := by
  intro fuel
  induction fuel with
  | zero =>
    intro offset
    simp [fetchLoop]
  | succ f ih =>
    intro offset
    unfold fetchLoop
    simp only []
    split
    · simp
    · split
      · simp
      · split
        case isTrue h => simp
        case isFalse h =>
          simp only []
          have hb := ih (offset + 100)
          have hdiv : (10000 - (offset + 100)) / 100 + 1 = (10000 - offset) / 100 := by
            omega
          omega

/-- Articles kept from one page lie inside the window. -/
lemma pageFilter_mem (s e : Int) :
    ∀ (page : List Article) (a : Article), a ∈ pageFilter s e page →
      s ≤ a.publish_time ∧ a.publish_time ≤ e := by
  intro page
  induction page with
  | nil =>
    intro a h
    simp [pageFilter] at h
  | cons x xs ih =>
    intro a h
    unfold pageFilter at h
    split at h
    case isTrue hx =>
      rcases List.mem_cons.mp h with rfl | hmem
      · simpa using hx
      · exact ih a hmem
    case isFalse hx =>
      split at h
      · simp at h
      · exact ih a h

/-- Every article collected by the paging loop lies inside the window. -/
lemma fetchLoop_mem (feed : Nat → List Article) (s e : Int) :
    ∀ (fuel offset : Nat) (a : Article), a ∈ (fetchLoop feed s e fuel offset).1 →
      s ≤ a.publish_time ∧ a.publish_time ≤ e := by
  intro fuel
  induction fuel with
  | zero =>
    intro offset a h
    simp [fetchLoop] at h
  | succ f ih =>
    intro offset a h
    unfold fetchLoop at h
    simp only [] at h
    split at h
    · simp at h
    · split at h
      · exact pageFilter_mem s e _ a h
      · split at h
        · exact pageFilter_mem s e _ a h
        · simp only [List.mem_append] at h
          rcases h with h | h
          · exact pageFilter_mem s e _ a h
          · exact ih _ a h

/-- On a page served in descending publish time, the per-page loop keeps
exactly the in-window articles. -/
lemma pageFilter_eq_filter (s e : Int) :
    ∀ page : List Article,
      page.Pairwise (fun a b => b.publish_time ≤ a.publish_time) →
      pageFilter s e page =
        page.filter (fun a => decide (s ≤ a.publish_time) &&
          decide (a.publish_time ≤ e)) := by
  intro page
  induction page with
  | nil =>
    intro _
    rfl
  | cons x xs ih =>
    intro hp
    have hp2 := List.pairwise_cons.mp hp
    unfold pageFilter
    split
    case isTrue hx =>
      rw [List.filter_cons_of_pos (by simpa using hx)]
      rw [ih hp2.2]
    case isFalse hx =>
      split
      case isTrue hlt =>
        rw [List.filter_cons_of_neg (by simpa using hx)]
        rw [eq_comm, List.filter_eq_nil_iff]
        intro b hb
        have hble := hp2.1 b hb
        simp only [Bool.and_eq_true, decide_eq_true_eq, not_and]
        intro hsb
        omega
      case isFalse hge =>
        rw [List.filter_cons_of_neg (by simpa using hx)]
        exact ih hp2.2

/-- Feed whose every page holds one in-window article, driving the loop
to its offset cap. -/
def c9CapFeed : Nat → List Article := fun _ => [{ id := "x", publish_time := 500 }]

/-- Claim C9 is false as stated: the safety cap permits 101 page fetches,
not 100 — the loop breaks only once the incremented offset exceeds 10000,
after fetching offsets 0, 100, …, 10000. -/
theorem c9_cap_allows_101_pages :
    (get_articles_by_time_range c9CapFeed 0 1000).2 = 101 := by
  rfl

/-- One-page feed of the specified scenario: three articles in descending
publish time, two inside the window [100, 400] and one before its start. -/
def c9Feed : Nat → List Article := fun n =>
  match n with
  | 0 => [{ id := "a1", publish_time := 350 }, { id := "a2", publish_time := 200 },
          { id := "a3", publish_time := 50 }]
  | _ => []

/-- Claim C9 (amended): the fetch keeps only in-window articles — and, on
pages served in descending publish time, exactly the in-window ones —
stops on an empty page or when a page's last article precedes the window
start, is capped at 101 pages (offsets 0..10000), and on the 3-article
scenario feed persists exactly 2 new Items. -/
theorem c9_fetch_window_paging (feed : Nat → List Article) (s e : Int) :
    ((get_articles_by_time_range feed s e).2 ≤ 101) ∧
    (∀ a, a ∈ (get_articles_by_time_range feed s e).1 →
        s ≤ a.publish_time ∧ a.publish_time ≤ e) ∧
    (∀ page : List Article,
        page.Pairwise (fun a b => b.publish_time ≤ a.publish_time) →
        pageFilter s e page =
          page.filter (fun a => decide (s ≤ a.publish_time) &&
            decide (a.publish_time ≤ e))) ∧
    (∀ fuel offset, feed offset = [] →
        fetchLoop feed s e (fuel + 1) offset = ([], 1)) ∧
    (∀ fuel offset, feed offset ≠ [] → lastPub (feed offset) < s →
        fetchLoop feed s e (fuel + 1) offset = (pageFilter s e (feed offset), 1)) ∧
    ((get_articles_by_time_range c9Feed 100 400).1 =
        [{ id := "a1", publish_time := 350 }, { id := "a2", publish_time := 200 }] ∧
      (fetch_and_save_articles [] (get_articles_by_time_range c9Feed 100 400).1
          (fun _ => some "html")).2 = 2) := by
  refine ⟨?_, ?_, pageFilter_eq_filter s e, ?_, ?_, rfl, rfl⟩
  · exact fetchLoop_pages_le feed s e 150 0
  · exact fun a h => fetchLoop_mem feed s e 150 0 a h
  · intro fuel offset hfe
    unfold fetchLoop
    simp [hfe]
  · intro fuel offset hfe hlast
    unfold fetchLoop
    simp only []
    rw [if_neg (by simpa [List.isEmpty_iff] using hfe), if_pos hlast]

/-- Witness for `c9_fetch_window_paging`: the scenario feed's collected
articles respect the window, the empty page at offset 1 stops the loop,
and the descending first page filters to exactly the in-window articles. -/
theorem c9_fetch_window_paging_witness :
    ((100 : Int) ≤ (Article.mk "a1" 350).publish_time ∧
      (Article.mk "a1" 350).publish_time ≤ 400) ∧
    fetchLoop c9Feed 100 400 (4 + 1) 1 = ([], 1) ∧
    fetchLoop c9Feed 100 400 (4 + 1) 0 = (pageFilter 100 400 (c9Feed 0), 1) ∧
    pageFilter 100 400 (c9Feed 0) =
      (c9Feed 0).filter (fun a => decide ((100 : Int) ≤ a.publish_time) &&
        decide (a.publish_time ≤ 400)) :=
  ⟨(c9_fetch_window_paging c9Feed 100 400).2.1 (Article.mk "a1" 350) (by decide),
   (c9_fetch_window_paging c9Feed 100 400).2.2.2.1 4 1 rfl,
   (c9_fetch_window_paging c9Feed 100 400).2.2.2.2.1 4 0 (by decide) (by decide),
   (c9_fetch_window_paging c9Feed 100 400).2.2.1 (c9Feed 0) (by decide)⟩

end InvestRadar
